import Mathlib

/-!
Shallow embedding of the core of `Crypto_Market_Dashboard.py`: the Fetcher
(response handling of `fetch_market_data` / `fetch_historical_data`, plus the
TTL memoization applied to both), the Normalizer (`format_market_data` /
`format_complete_historical_data`), and the date-range normalization performed
in the sidebar before a historical fetch.

Modelling conventions:
- JSON numbers are `Rat` (the claims do not concern float representation).
- A raw JSON field is `Option (Option α)`: `none` means the key is absent from
  the record, `some none` means the key is present with a `null` value, and
  `some (some v)` is an actual value.  Both `none` and `some none` become a
  missing marker (`NaN`) in the pandas dataframe, but key presence (not
  null-ness) decides whether a dataframe column exists at all.
- Fallible pandas operations are `Except String`: building a dataframe from
  columns of unequal length raises `ValueError`, and selecting a column that
  does not exist raises `KeyError`; both are embedded as `.error`.
- `pd.to_datetime(ts, unit='ms')` is injective and monotone, so datetime
  values are represented by their underlying millisecond timestamp.
- `DataFrame.round` (numpy rounding) rounds half to even; it is embedded as
  exact half-to-even rounding on `Rat`.
-/

section

attribute [local semireducible] Rat.mul Rat.inv Rat.add Rat.sub Rat.ofScientific

instance {ε α : Type} [DecidableEq ε] [DecidableEq α] : DecidableEq (Except ε α) := fun x y =>
  match x, y with
  | .ok a, .ok b =>
      if h : a = b then .isTrue (by rw [h]) else .isFalse (fun hc => h (Except.ok.inj hc))
  | .error a, .error b =>
      if h : a = b then .isTrue (by rw [h]) else .isFalse (fun hc => h (Except.error.inj hc))
  | .ok _, .error _ => .isFalse (fun hc => Except.noConfusion hc)
  | .error _, .ok _ => .isFalse (fun hc => Except.noConfusion hc)

/-- One raw per-asset record of the market snapshot JSON, as consumed by
`format_market_data` (source lines 51-56).  Each field is
absent / null / value, see the module conventions. -/
structure RawMarketRecord where
  name : Option (Option String)
  symbol : Option (Option String)
  current_price : Option (Option Rat)
  price_change_percentage_24h : Option (Option Rat)
  market_cap : Option (Option Rat)
deriving DecidableEq

/-- One row of the normalized snapshot table, columns
`["Name", "Symbol", "Price", "24h Change (%)", "Market Cap"]` in source
order.  `change_24h` stands for the `24h Change (%)` column and `Market_Cap`
for `Market Cap`.  The string columns keep their missing marker (`none`);
`fillna` turns the numeric columns into plain numbers. -/
structure MarketRow where
  Name : Option String
  Symbol : Option String
  Price : Rat
  change_24h : Rat
  Market_Cap : Rat
deriving DecidableEq

/-- Placeholder record used as the default of `List.getD`; indices are always
in range where it appears. -/
def dummyRec : RawMarketRecord := ⟨none, none, none, none, none⟩

/-- Placeholder row used as the default of `List.getD`. -/
def dummyRow : MarketRow := ⟨none, none, 0, 0, 0⟩

/-- In `pd.DataFrame(raw_data)` (a list of dicts), a column exists exactly
when at least one record carries the key.  `df[[...]]` on line 53 raises
`KeyError` unless all five selected columns exist. -/
def marketColumnsPresent (raw : List RawMarketRecord) : Bool :=
  raw.any (fun r => r.name.isSome) &&
  raw.any (fun r => r.symbol.isSome) &&
  raw.any (fun r => r.current_price.isSome) &&
  raw.any (fun r => r.price_change_percentage_24h.isSome) &&
  raw.any (fun r => r.market_cap.isSome)

/-- Row-wise effect of lines 53-55: select the five fields, rename the
columns, and `fillna` the three numeric columns with 0.  A field that is
absent or null reads as `NaN`, which `fillna` replaces by 0 in the numeric
columns only; `Name` and `Symbol` are not filled. -/
def marketRow (r : RawMarketRecord) : MarketRow where
  Name := r.name.join
  Symbol := r.symbol.join
  Price := (r.current_price.join).getD 0
  change_24h := (r.price_change_percentage_24h.join).getD 0
  Market_Cap := (r.market_cap.join).getD 0

/-- Embedding of `format_market_data` (source lines 51-56).  Selecting the
five columns raises `KeyError` when one of them does not exist (in
particular on an empty record list); otherwise each record maps to one row,
in input order. -/
def format_market_data (raw : List RawMarketRecord) : Except String (List MarketRow) :=
  if marketColumnsPresent raw then
    .ok (raw.map marketRow)
  else
    .error "KeyError: columns not in index"

/-- Raw historical payload `{prices, market_caps, total_volumes}` as consumed
by `format_complete_historical_data` (source lines 58-75).  A price point is
a `[timestampMs, value]` pair; a cap/volume entry is either such a pair or an
empty entry (`none`, the falsy `mc` of `mc[1] if mc else 0`). -/
structure RawHistorical where
  prices : List (Rat × Rat)
  market_caps : List (Option (Rat × Rat))
  total_volumes : List (Option (Rat × Rat))
deriving DecidableEq

/-- One row of the normalized historical table, columns
`['Date', 'Price', 'Market_Cap', 'Volume']`.  `Date` is the millisecond
timestamp viewed through the monotone injection `pd.to_datetime`. -/
structure HistRow where
  Date : Rat
  Price : Rat
  Market_Cap : Rat
  Volume : Rat
deriving DecidableEq

/-- Placeholder row used as the default of `List.getD`. -/
def dummyHistRow : HistRow := ⟨0, 0, 0, 0⟩

/-- Round half to even, the tie-breaking rule of numpy/pandas `round`. -/
def roundHalfEven (q : Rat) : Int :=
  if q - ⌊q⌋ < 1 / 2 then ⌊q⌋
  else if 1 / 2 < q - ⌊q⌋ then ⌊q⌋ + 1
  else if ⌊q⌋ % 2 = 0 then ⌊q⌋ else ⌊q⌋ + 1

/-- `Series.round(2)` on a value: round to 2 decimal places. -/
def round2 (q : Rat) : Rat := (roundHalfEven (q * 100) : Rat) / 100

/-- `Series.round(0)` on a value: round to 0 decimal places. -/
def round0 (q : Rat) : Rat := (roundHalfEven q : Rat)

/-- Row `i` of the dataframe built on lines 64-74: `Timestamp`/`Price` come
from `prices[i]`, `Market_Cap` from `market_caps[i]` (0 for an empty entry),
`Volume` from `total_volumes[i]` (likewise), then `Date` replaces
`Timestamp` and the three numeric columns are rounded. -/
def histRow (d : RawHistorical) (i : Nat) : HistRow where
  Date := (d.prices.getD i (0, 0)).1
  Price := round2 (d.prices.getD i (0, 0)).2
  Market_Cap := round0 (((d.market_caps.getD i none).map Prod.snd).getD 0)
  Volume := round0 (((d.total_volumes.getD i none).map Prod.snd).getD 0)

/-- Embedding of `format_complete_historical_data` (source lines 58-75).
An empty price list short-circuits to an empty dataframe (line 62) before
any column is built.  Otherwise `pd.DataFrame` (line 64) raises `ValueError`
unless all four column lists — `Timestamp` and `Price` of length
`prices.length`, `Market_Cap` of length `market_caps.length`, `Volume` of
length `total_volumes.length` — have equal length. -/
def format_complete_historical_data (d : RawHistorical) : Except String (List HistRow) :=
  if d.prices.isEmpty then
    .ok []
  else if d.market_caps.length = d.prices.length ∧ d.total_volumes.length = d.prices.length then
    .ok ((List.range d.prices.length).map (histRow d))
  else
    .error "ValueError: All arrays must be of the same length"

/-- Error information carried by the exception raised on a non-200 upstream
response; the source formats the status code and response text into the
exception message (lines 33 and 49). -/
structure FetchFailure where
  statusCode : Nat
  body : String
deriving DecidableEq

/-- An upstream HTTP response as seen by the fetchers: status code, raw text
body, and the decoded body `response.json()`, abstracted over the JSON
type `J`. -/
structure HttpResponse (J : Type) where
  status_code : Nat
  text : String
  json : J
deriving DecidableEq

/-- Response handling of `fetch_market_data` (source lines 29-33): return the
decoded JSON body on status 200, raise on any other status. -/
def fetch_market_data_result {J : Type} (response : HttpResponse J) : Except FetchFailure J :=
  if response.status_code = 200 then .ok response.json
  else .error ⟨response.status_code, response.text⟩

/-- Response handling of `fetch_historical_data` (source lines 45-49): same
contract as `fetch_market_data_result`. -/
def fetch_historical_data_result {J : Type} (r : HttpResponse J) : Except FetchFailure J :=
  if r.status_code = 200 then .ok r.json
  else .error ⟨r.status_code, r.text⟩

/-- Follows the spec's words (§7), for comparison with the code: an HTTP
success status is one of the 2xx class. -/
def isSuccessStatus (c : Nat) : Bool := 200 ≤ c && c < 300

/-- TTL, in seconds, of the cache decorators on both fetchers (source lines
18 and 35). -/
def cacheTTL : Nat := 300

/-- Modelled from the spec: the `ttl=300` memoization decorator applied to
`fetch_market_data` and `fetch_historical_data` (source lines 18 and 35),
whose implementation is library code outside this repository.  The cache
state maps an argument tuple to a cached value and its insertion time; a
lookup within the TTL returns the stored value without fetching, otherwise
the underlying fetch runs and its result is stored at the current time.
Returns the result, the new cache state, and whether the underlying fetch
(the network request) actually ran. -/
def cachedFetch {K V : Type} [DecidableEq K] (cache : K → Option (V × Nat))
    (key : K) (now : Nat) (fetchFn : Unit → V) : V × (K → Option (V × Nat)) × Bool :=
  match cache key with
  | some (v, t) =>
      if now < t + cacheTTL then (v, cache, false)
      else
        let v := fetchFn ()
        (v, fun k => if k = key then some (v, now) else cache k, true)
  | none =>
      let v := fetchFn ()
      (v, fun k => if k = key then some (v, now) else cache k, true)

/-- Sidebar date normalization, start side (source lines 113-114):
`datetime.combine(start_date, time.min)` is midnight, 00:00:00, of the
picked calendar day.  Calendar days are counted from the epoch and
timestamps are modelled in UTC; the value is the POSIX timestamp of
`.timestamp()` in (possibly fractional) seconds. -/
def normalize_start_date (day : Int) : Rat := ((86400 * day : Int) : Rat)

/-- Sidebar date normalization, end side (source lines 115-116):
`datetime.combine(end_date, time.max)` is 23:59:59.999999 of the picked
calendar day. -/
def normalize_end_date (day : Int) : Rat :=
  ((86400 * day + 86399 : Int) : Rat) + 999999 / 1000000

/-- Python `int()` on a number: truncation toward zero. -/
def pyInt (q : Rat) : Int := if 0 ≤ q then ⌊q⌋ else ⌈q⌉

/-- The integer `from`/`to` request parameters built inside
`fetch_historical_data` (source lines 38-43): `int(from_date.timestamp())`
and `int(to_date.timestamp())`. -/
def fetch_range_params (from_date to_date : Rat) : Int × Int :=
  (pyInt from_date, pyInt to_date)

/-- Follows the spec's words (§4.1), for comparison with the code:
well-formed Fetcher output for a historical query is a record of "three
equal-length-or-empty parallel series". -/
def specWellFormedHistorical (d : RawHistorical) : Bool :=
  (d.market_caps.isEmpty || d.market_caps.length == d.prices.length) &&
  (d.total_volumes.isEmpty || d.total_volumes.length == d.prices.length)

/-- Concrete historical payload for the C2 witness. -/
def c2demo : RawHistorical :=
  ⟨[(0, 5), (1000, 7 / 2)], [some (0, 10), none], [none, some (1000, 3)]⟩

/-- Concrete output table for the C2 witness. -/
def c2rows : List HistRow := [⟨0, 5, 10, 0⟩, ⟨1000, 7 / 2, 0, 3⟩]

/-- Concrete snapshot input for the C3 witness: the single record has a null
`current_price`, a null `price_change_percentage_24h` and a null
`market_cap`. -/
def c3demo : List RawMarketRecord :=
  [⟨some (some "Bitcoin"), some (some "btc"), some none, some none, some none⟩]

/-- Concrete output table for the C3 witness: all numeric fields were filled
with 0. -/
def c3rows : List MarketRow := [⟨some "Bitcoin", some "btc", 0, 0, 0⟩]

/-- Concrete snapshot input for the C10 witness: the record's `name` is
null and its `symbol` is a value. -/
def c10demo : List RawMarketRecord :=
  [⟨some none, some (some "btc"), some (some 1), some (some 2), some (some 3)⟩]

/-- Concrete output table for the C10 witness: the null `name` stayed a
missing marker. -/
def c10rows : List MarketRow := [⟨none, some "btc", 1, 2, 3⟩]

/-- Concrete snapshot input for the C1 witness. -/
def c1demoRaw : List RawMarketRecord :=
  [⟨some (some "Bitcoin"), some (some "btc"), some (some 65000), some none, some (some 1)⟩]

/-- Concrete historical payload for the C1 witness, with equal-length
series. -/
def c1demoHist : RawHistorical := ⟨[(0, 1)], [some (0, 2)], [some (0, 3)]⟩

/-- Concrete historical payload for the C4 witness: ascending timestamps,
one empty cap entry and one empty volume entry. -/
def c4demo : RawHistorical :=
  ⟨[(0, 1), (500, 2)], [none, some (500, 4)], [some (0, 6), none]⟩

/-- Concrete output table for the C4 witness. -/
def c4rows : List HistRow := [⟨0, 1, 0, 6⟩, ⟨500, 2, 4, 0⟩]

/-- Concrete 201 response for the C6 counterexample: a success status that
is not 200. -/
def c6resp : HttpResponse Nat := ⟨201, "Created", 0⟩

/-- Concrete 404 response for the C6 witness. -/
def c6notFound : HttpResponse Nat := ⟨404, "Not Found", 7⟩

/-- Concrete fetch results for the C7 witness. -/
def c7f : Unit → Nat := fun _ => 5

/-- Concrete fetch results for the C7 witness, second call. -/
def c7g1 : Unit → Nat := fun _ => 6

/-- Concrete fetch results for the C7 witness, third call. -/
def c7g2 : Unit → Nat := fun _ => 7

/-- Concrete fetch results for the C7 witness, fourth call. -/
def c7g3 : Unit → Nat := fun _ => 8

/-- The first record of the spec's end-to-end example (C9): note the null
`price_change_percentage_24h`. -/
def btcRecord : RawMarketRecord :=
  ⟨some (some "Bitcoin"), some (some "btc"), some (some 65000), some none,
   some (some 1280000000000)⟩

/-- The second record of the spec's end-to-end example (C9). -/
def ethRecord : RawMarketRecord :=
  ⟨some (some "Ethereum"), some (some "eth"), some (some 3400), some (some (-21 / 10)),
   some (some 410000000000)⟩

/-- Auxiliary: indexing a list built by mapping over `List.range`. -/
lemma getD_map_range {α : Type} (n i : Nat) (f : Nat → α) (d : α) (h : i < n) :
    ((List.range n).map f).getD i d = f i := by
  rw [List.getD_eq_getElem?_getD, List.getElem?_map, List.getElem?_range h]
  rfl

/-- Auxiliary: indexing a mapped list inside its bounds. -/
lemma getD_map_of_lt {α β : Type} (l : List α) (f : α → β) (i : Nat) (d : β) (d2 : α)
    (h : i < l.length) : (l.map f).getD i d = f (l.getD i d2) := by
  have h2 : l[i]? = some l[i] := List.getElem?_eq_getElem h
  rw [List.getD_eq_getElem?_getD, List.getD_eq_getElem?_getD, List.getElem?_map, h2]
  rfl

/-- Characterization of a successful `format_complete_historical_data` run:
one row per price point, row `i` being `histRow d i`. -/
lemma hist_ok_spec {d : RawHistorical} {rows : List HistRow}
    (h : format_complete_historical_data d = .ok rows) :
    rows.length = d.prices.length ∧
    ∀ i, i < d.prices.length → rows.getD i dummyHistRow = histRow d i := by
  unfold format_complete_historical_data at h
  split at h
  next hE =>
    injection h with h
    subst h
    have hnil : d.prices = [] := by simpa [List.isEmpty_iff] using hE
    refine ⟨by simp [hnil], ?_⟩
    intro i hi
    rw [hnil] at hi
    simp at hi
  next hE =>
    split at h
    next hL =>
      injection h with h
      subst h
      refine ⟨by simp, ?_⟩
      intro i hi
      exact getD_map_range _ _ _ _ hi
    next hL => cases h

/-- Characterization of a successful `format_market_data` run: one row per
raw record, in order, row `i` being `marketRow` of record `i`. -/
lemma market_ok_spec {raw : List RawMarketRecord} {rows : List MarketRow}
    (h : format_market_data raw = .ok rows) :
    rows.length = raw.length ∧
    ∀ i, i < raw.length → rows.getD i dummyRow = marketRow (raw.getD i dummyRec) := by
  unfold format_market_data at h
  split at h
  next hP =>
    injection h with h
    subst h
    refine ⟨by simp, ?_⟩
    intro i hi
    exact getD_map_of_lt _ _ _ _ dummyRec hi
  next hP => cases h

/-- Auxiliary: a sequence that increases between neighbours below `n` is
monotone below `n`. -/
lemma adjacent_mono (f : Nat → Rat) (n : Nat)
    (h : ∀ j, j + 1 < n → f j ≤ f (j + 1)) :
    ∀ j, j < n → ∀ i, i ≤ j → f i ≤ f j := by
  intro j
  induction j with
  | zero =>
    intro _ i hi
    have h0 : i = 0 := Nat.le_zero.mp hi
    subst h0
    exact le_refl _
  | succ k ih =>
    intro hk i hi
    rcases Nat.eq_or_lt_of_le hi with h1 | h1
    · subst h1
      exact le_refl _
    · have hik : i ≤ k := Nat.lt_succ_iff.mp h1
      exact le_trans (ih (Nat.lt_of_succ_lt hk) i hik) (h k hk)

/-- C5: for every raw historical payload whose price list is empty,
`format_complete_historical_data` returns the empty table — an `ok` result
(the "no data" case), not an error — regardless of the contents of the
`market_caps` and `total_volumes` series. -/
theorem c5_empty_prices_empty_result (caps vols : List (Option (Rat × Rat))) :
    format_complete_historical_data ⟨[], caps, vols⟩ = .ok [] := rfl

/-- C2: when `format_complete_historical_data` returns a table for a payload
whose price series has N points, the table has exactly N rows; each row's
`Price` is the raw price rounded (half to even) to 2 decimal places — in
particular 100 times it is an integer — and `Market_Cap` and `Volume` are
rounded to 0 decimal places, hence integers. -/
theorem c2_row_count_and_rounding (d : RawHistorical) (rows : List HistRow)
    (h : format_complete_historical_data d = .ok rows) :
    rows.length = d.prices.length ∧
    ∀ i, i < rows.length →
      (rows.getD i dummyHistRow).Price = round2 (d.prices.getD i (0, 0)).2 ∧
      ((rows.getD i dummyHistRow).Price * 100).den = 1 ∧
      ((rows.getD i dummyHistRow).Market_Cap).den = 1 ∧
      ((rows.getD i dummyHistRow).Volume).den = 1 := by
  obtain ⟨hlen, hrow⟩ := hist_ok_spec h
  refine ⟨hlen, ?_⟩
  intro i hi
  rw [hlen] at hi
  rw [hrow i hi]
  refine ⟨rfl, ?_, ?_, ?_⟩
  · show (round2 (d.prices.getD i (0, 0)).2 * 100).den = 1
    unfold round2
    rw [div_mul_cancel₀ _ (by norm_num : (100 : Rat) ≠ 0)]
    exact Rat.den_intCast _
  · exact Rat.den_intCast _
  · exact Rat.den_intCast _

/-- C2 witness: the theorem applied to a concrete payload. -/
theorem c2_witness :
    format_complete_historical_data c2demo = .ok c2rows ∧
    (c2rows.length = c2demo.prices.length ∧
     ∀ i, i < c2rows.length →
       (c2rows.getD i dummyHistRow).Price = round2 (c2demo.prices.getD i (0, 0)).2 ∧
       ((c2rows.getD i dummyHistRow).Price * 100).den = 1 ∧
       ((c2rows.getD i dummyHistRow).Market_Cap).den = 1 ∧
       ((c2rows.getD i dummyHistRow).Volume).den = 1) :=
  ⟨by decide, c2_row_count_and_rounding c2demo c2rows (by decide)⟩

/-- C3: whenever `format_market_data` returns a table, there is one row per
raw record, each numeric column holds the raw value when one is present and
0 when the field is missing or null — so no numeric field of any output row
is ever a missing marker (the columns are plain numbers by construction). -/
theorem c3_numeric_defaults (raw : List RawMarketRecord) (rows : List MarketRow)
    (h : format_market_data raw = .ok rows) :
    rows.length = raw.length ∧
    ∀ i, i < rows.length →
      (rows.getD i dummyRow).Price = ((raw.getD i dummyRec).current_price.join.getD 0) ∧
      ((raw.getD i dummyRec).current_price.join = none → (rows.getD i dummyRow).Price = 0) ∧
      (rows.getD i dummyRow).change_24h =
        ((raw.getD i dummyRec).price_change_percentage_24h.join.getD 0) ∧
      ((raw.getD i dummyRec).price_change_percentage_24h.join = none →
        (rows.getD i dummyRow).change_24h = 0) ∧
      (rows.getD i dummyRow).Market_Cap = ((raw.getD i dummyRec).market_cap.join.getD 0) ∧
      ((raw.getD i dummyRec).market_cap.join = none → (rows.getD i dummyRow).Market_Cap = 0) := by
  obtain ⟨hlen, hrow⟩ := market_ok_spec h
  refine ⟨hlen, ?_⟩
  intro i hi
  rw [hlen] at hi
  rw [hrow i hi]
  refine ⟨rfl, ?_, rfl, ?_, rfl, ?_⟩
  · intro hnone
    show ((raw.getD i dummyRec).current_price.join).getD 0 = 0
    rw [hnone]
    rfl
  · intro hnone
    show ((raw.getD i dummyRec).price_change_percentage_24h.join).getD 0 = 0
    rw [hnone]
    rfl
  · intro hnone
    show ((raw.getD i dummyRec).market_cap.join).getD 0 = 0
    rw [hnone]
    rfl

/-- C3 witness: the theorem applied to a concrete record with null numeric
fields. -/
theorem c3_witness :
    format_market_data c3demo = .ok c3rows ∧
    (c3rows.length = c3demo.length ∧
     ∀ i, i < c3rows.length →
       (c3rows.getD i dummyRow).Price = ((c3demo.getD i dummyRec).current_price.join.getD 0) ∧
       ((c3demo.getD i dummyRec).current_price.join = none → (c3rows.getD i dummyRow).Price = 0) ∧
       (c3rows.getD i dummyRow).change_24h =
         ((c3demo.getD i dummyRec).price_change_percentage_24h.join.getD 0) ∧
       ((c3demo.getD i dummyRec).price_change_percentage_24h.join = none →
         (c3rows.getD i dummyRow).change_24h = 0) ∧
       (c3rows.getD i dummyRow).Market_Cap = ((c3demo.getD i dummyRec).market_cap.join.getD 0) ∧
       ((c3demo.getD i dummyRec).market_cap.join = none →
         (c3rows.getD i dummyRow).Market_Cap = 0)) :=
  ⟨by decide, c3_numeric_defaults c3demo c3rows (by decide)⟩

/-- C10: `format_market_data` passes the `Name` and `Symbol` columns through
unchanged, never defaulting them: a missing or null raw `name`/`symbol`
stays a missing marker in the output row (only the numeric columns are
filled with 0, see C3). -/
theorem c10_strings_passthrough (raw : List RawMarketRecord) (rows : List MarketRow)
    (h : format_market_data raw = .ok rows) :
    rows.length = raw.length ∧
    ∀ i, i < rows.length →
      (rows.getD i dummyRow).Name = (raw.getD i dummyRec).name.join ∧
      (rows.getD i dummyRow).Symbol = (raw.getD i dummyRec).symbol.join ∧
      ((raw.getD i dummyRec).name.join = none → (rows.getD i dummyRow).Name = none) ∧
      ((raw.getD i dummyRec).symbol.join = none → (rows.getD i dummyRow).Symbol = none) := by
  obtain ⟨hlen, hrow⟩ := market_ok_spec h
  refine ⟨hlen, ?_⟩
  intro i hi
  rw [hlen] at hi
  rw [hrow i hi]
  refine ⟨rfl, rfl, ?_, ?_⟩
  · intro hnone
    exact hnone
  · intro hnone
    exact hnone

/-- C10 witness: the theorem applied to a concrete record with a null
name. -/
theorem c10_witness :
    format_market_data c10demo = .ok c10rows ∧
    (c10rows.length = c10demo.length ∧
     ∀ i, i < c10rows.length →
       (c10rows.getD i dummyRow).Name = (c10demo.getD i dummyRec).name.join ∧
       (c10rows.getD i dummyRow).Symbol = (c10demo.getD i dummyRec).symbol.join ∧
       ((c10demo.getD i dummyRec).name.join = none → (c10rows.getD i dummyRow).Name = none) ∧
       ((c10demo.getD i dummyRec).symbol.join = none →
         (c10rows.getD i dummyRow).Symbol = none)) :=
  ⟨by decide, c10_strings_passthrough c10demo c10rows (by decide)⟩

/-- C4: whenever `format_complete_historical_data` returns a table, it has
combined the three series positionally: row `i` takes its timestamp and
price from `prices[i]`, its cap from `market_caps[i]` and its volume from
`total_volumes[i]`, substituting 0 for an empty cap or volume entry; and it
preserves the input order of the price points — the rows' dates are
ascending whenever the source timestamps are. -/
theorem c4_positional_zip (d : RawHistorical) (rows : List HistRow)
    (h : format_complete_historical_data d = .ok rows)
    (hasc : ∀ j, j + 1 < d.prices.length →
      (d.prices.getD j (0, 0)).1 ≤ (d.prices.getD (j + 1) (0, 0)).1) :
    (∀ i, i < rows.length →
      (rows.getD i dummyHistRow).Date = (d.prices.getD i (0, 0)).1 ∧
      (rows.getD i dummyHistRow).Market_Cap =
        round0 (((d.market_caps.getD i none).map Prod.snd).getD 0) ∧
      (d.market_caps.getD i none = none → (rows.getD i dummyHistRow).Market_Cap = 0) ∧
      (rows.getD i dummyHistRow).Volume =
        round0 (((d.total_volumes.getD i none).map Prod.snd).getD 0) ∧
      (d.total_volumes.getD i none = none → (rows.getD i dummyHistRow).Volume = 0)) ∧
    (∀ i j, i ≤ j → j < rows.length →
      (rows.getD i dummyHistRow).Date ≤ (rows.getD j dummyHistRow).Date) := by
  obtain ⟨hlen, hrow⟩ := hist_ok_spec h
  have hdate : ∀ k, k < d.prices.length →
      (rows.getD k dummyHistRow).Date = (d.prices.getD k (0, 0)).1 := by
    intro k hk
    rw [hrow k hk]
    rfl
  constructor
  · intro i hi
    rw [hlen] at hi
    refine ⟨hdate i hi, ?_, ?_, ?_, ?_⟩
    · rw [hrow i hi]
      rfl
    · intro hnone
      rw [hrow i hi]
      show round0 (((d.market_caps.getD i none).map Prod.snd).getD 0) = 0
      rw [hnone]
      decide
    · rw [hrow i hi]
      rfl
    · intro hnone
      rw [hrow i hi]
      show round0 (((d.total_volumes.getD i none).map Prod.snd).getD 0) = 0
      rw [hnone]
      decide
  · intro i j hij hj
    rw [hlen] at hj
    rw [hdate i (lt_of_le_of_lt hij hj), hdate j hj]
    exact adjacent_mono (fun k => (d.prices.getD k (0, 0)).1) d.prices.length hasc j hj i hij

/-- Ascending timestamps of the C4 witness payload. -/
lemma c4asc : ∀ j, j + 1 < c4demo.prices.length →
    (c4demo.prices.getD j (0, 0)).1 ≤ (c4demo.prices.getD (j + 1) (0, 0)).1 := by
  intro j hj
  have hj2 : j + 1 < 2 := hj
  have hj0 : j = 0 := by omega
  subst hj0
  decide

/-- C4 witness: the theorem applied to a concrete payload with empty
entries and ascending timestamps. -/
theorem c4_witness :
    format_complete_historical_data c4demo = .ok c4rows ∧
    (∀ j, j + 1 < c4demo.prices.length →
      (c4demo.prices.getD j (0, 0)).1 ≤ (c4demo.prices.getD (j + 1) (0, 0)).1) ∧
    ((∀ i, i < c4rows.length →
        (c4rows.getD i dummyHistRow).Date = (c4demo.prices.getD i (0, 0)).1 ∧
        (c4rows.getD i dummyHistRow).Market_Cap =
          round0 (((c4demo.market_caps.getD i none).map Prod.snd).getD 0) ∧
        (c4demo.market_caps.getD i none = none → (c4rows.getD i dummyHistRow).Market_Cap = 0) ∧
        (c4rows.getD i dummyHistRow).Volume =
          round0 (((c4demo.total_volumes.getD i none).map Prod.snd).getD 0) ∧
        (c4demo.total_volumes.getD i none = none → (c4rows.getD i dummyHistRow).Volume = 0)) ∧
     (∀ i j, i ≤ j → j < c4rows.length →
        (c4rows.getD i dummyHistRow).Date ≤ (c4rows.getD j dummyHistRow).Date)) :=
  ⟨by decide, c4asc, c4_positional_zip c4demo c4rows (by decide) c4asc⟩

/-- C1 as stated is refuted: the payload with one price point and empty
cap/volume series is well-formed Fetcher output in the spec's own sense
("three equal-length-or-empty parallel series", §4.1), yet
`format_complete_historical_data` raises — pandas `ValueError`, since the
`Market_Cap` and `Volume` column lists are shorter than the price columns —
instead of returning a result. -/
theorem c1_counterexample :
    specWellFormedHistorical ⟨[(0, 1)], [], []⟩ = true ∧
    (format_complete_historical_data ⟨[(0, 1)], [], []⟩).isOk = false := by
  decide

/-- C1 amended: both normalizers are deterministic (they are pure functions
of their input) and total on well-formed Fetcher input, provided additionally
that the snapshot record list has all five columns present (in particular it
is non-empty) and that the cap and volume series have exactly the price
series' length whenever the price series is non-empty. -/
theorem c1_totality_amended (raw : List RawMarketRecord) (d : RawHistorical)
    (hm : marketColumnsPresent raw = true)
    (hc : d.prices ≠ [] → d.market_caps.length = d.prices.length)
    (hv : d.prices ≠ [] → d.total_volumes.length = d.prices.length) :
    (format_market_data raw).isOk = true ∧
    (format_complete_historical_data d).isOk = true := by
  constructor
  · unfold format_market_data
    rw [if_pos hm]
    rfl
  · unfold format_complete_historical_data
    split
    · rfl
    next hE =>
      have hne : d.prices ≠ [] := by
        intro hnil
        exact hE (by simp [hnil])
      rw [if_pos ⟨hc hne, hv hne⟩]
      rfl

/-- C1 witness: the amended totality theorem applied to concrete inputs. -/
theorem c1_totality_witness :
    marketColumnsPresent c1demoRaw = true ∧
    (c1demoHist.prices ≠ [] → c1demoHist.market_caps.length = c1demoHist.prices.length) ∧
    (c1demoHist.prices ≠ [] → c1demoHist.total_volumes.length = c1demoHist.prices.length) ∧
    ((format_market_data c1demoRaw).isOk = true ∧
     (format_complete_historical_data c1demoHist).isOk = true) :=
  ⟨by decide, fun _ => by decide, fun _ => by decide,
   c1_totality_amended c1demoRaw c1demoHist (by decide) (fun _ => by decide)
     (fun _ => by decide)⟩

/-- C6 as stated is refuted: 201 is an HTTP success status, yet both fetch
operations raise on a 201 response, because the source tests
`status_code == 200` rather than success. -/
theorem c6_counterexample :
    isSuccessStatus 201 = true ∧
    (fetch_market_data_result c6resp).isOk = false ∧
    (fetch_historical_data_result c6resp).isOk = false := by
  decide

/-- C6 amended: each fetch operation raises a `FetchFailure` carrying the
upstream status code and response body exactly when the upstream status is
not 200 (the only success status the upstream contract emits); on a 200 it
returns the decoded JSON body unchanged.  Both fetchers implement the same
contract. -/
theorem c6_fetch_contract {J : Type} (r : HttpResponse J) :
    ((fetch_market_data_result r).isOk = true ↔ r.status_code = 200) ∧
    (r.status_code = 200 → fetch_market_data_result r = .ok r.json) ∧
    (r.status_code ≠ 200 →
      fetch_market_data_result r = .error ⟨r.status_code, r.text⟩) ∧
    fetch_historical_data_result r = fetch_market_data_result r := by
  by_cases h200 : r.status_code = 200
  · simp [fetch_market_data_result, fetch_historical_data_result, Except.isOk, Except.toBool, h200]
  · simp [fetch_market_data_result, fetch_historical_data_result, Except.isOk, Except.toBool, h200]

/-- C6 witness: the amended contract at a concrete 404 response. -/
theorem c6_fetch_contract_witness :
    ((fetch_market_data_result c6notFound).isOk = true ↔ c6notFound.status_code = 200) ∧
    (c6notFound.status_code = 200 → fetch_market_data_result c6notFound = .ok c6notFound.json) ∧
    (c6notFound.status_code ≠ 200 →
      fetch_market_data_result c6notFound = .error ⟨c6notFound.status_code, c6notFound.text⟩) ∧
    fetch_historical_data_result c6notFound = fetch_market_data_result c6notFound :=
  c6_fetch_contract c6notFound

/-- Auxiliary: a cache hit within the TTL returns the stored value, keeps
the state and does not fetch. -/
lemma cachedFetch_hit {K V : Type} [DecidableEq K] (cache : K → Option (V × Nat))
    (key : K) (now : Nat) (fetchFn : Unit → V) (v : V) (t : Nat)
    (hc : cache key = some (v, t)) (h : now < t + cacheTTL) :
    cachedFetch cache key now fetchFn = (v, cache, false) := by
  unfold cachedFetch
  rw [hc]
  show (if now < t + cacheTTL then _ else _) = _
  rw [if_pos h]

/-- Auxiliary: a cache hit past the TTL re-fetches and stores the fresh
value. -/
lemma cachedFetch_expired {K V : Type} [DecidableEq K] (cache : K → Option (V × Nat))
    (key : K) (now : Nat) (fetchFn : Unit → V) (v : V) (t : Nat)
    (hc : cache key = some (v, t)) (h : ¬ now < t + cacheTTL) :
    cachedFetch cache key now fetchFn =
      (fetchFn (), fun k => if k = key then some (fetchFn (), now) else cache k, true) := by
  unfold cachedFetch
  rw [hc]
  show (if now < t + cacheTTL then _ else _) = _
  rw [if_neg h]

/-- Auxiliary: a cache miss fetches and stores. -/
lemma cachedFetch_miss {K V : Type} [DecidableEq K] (cache : K → Option (V × Nat))
    (key : K) (now : Nat) (fetchFn : Unit → V)
    (hc : cache key = none) :
    cachedFetch cache key now fetchFn =
      (fetchFn (), fun k => if k = key then some (fetchFn (), now) else cache k, true) := by
  unfold cachedFetch
  rw [hc]

/-- C7: starting from an empty cache, the first call fetches over the
network; a second call with the same key within 300 seconds returns the
same result without fetching; a call with the same key more than 300
seconds later re-fetches (and returns the fresh value); and a call with a
different key fetches.  The statement is generic in the key and value
types, so it covers the argument tuples of both `fetch_market_data` and
`fetch_historical_data`. -/
theorem c7_cache_policy {K V : Type} [DecidableEq K]
    (key altKey : K) (t0 t1 t2 t3 : Nat) (f g1 g2 g3 : Unit → V)
    (hwithin : t1 < t0 + 300) (hafter : t0 + 300 < t2) (halt : altKey ≠ key) :
    (cachedFetch (fun _ => none) key t0 f).1 = f () ∧
    (cachedFetch (fun _ => none) key t0 f).2.2 = true ∧
    (cachedFetch (cachedFetch (fun _ => none) key t0 f).2.1 key t1 g1).1 = f () ∧
    (cachedFetch (cachedFetch (fun _ => none) key t0 f).2.1 key t1 g1).2.2 = false ∧
    (cachedFetch (cachedFetch (fun _ => none) key t0 f).2.1 key t2 g2).1 = g2 () ∧
    (cachedFetch (cachedFetch (fun _ => none) key t0 f).2.1 key t2 g2).2.2 = true ∧
    (cachedFetch (cachedFetch (fun _ => none) key t0 f).2.1 altKey t3 g3).2.2 = true := by
  have hσ : (cachedFetch (fun _ => none : K → Option (V × Nat)) key t0 f).2.1 key =
      some (f (), t0) := by
    show (if key = key then some (f (), t0) else none) = some (f (), t0)
    rw [if_pos rfl]
  have hσa : (cachedFetch (fun _ => none : K → Option (V × Nat)) key t0 f).2.1 altKey =
      none := by
    show (if altKey = key then some (f (), t0) else none) = none
    rw [if_neg halt]
  have hin : t1 < t0 + cacheTTL := hwithin
  have hout : ¬ t2 < t0 + cacheTTL := by
    show ¬ t2 < t0 + 300
    omega
  refine ⟨rfl, rfl, ?_, ?_, ?_, ?_, ?_⟩
  · rw [cachedFetch_hit _ key t1 g1 (f ()) t0 hσ hin]
  · rw [cachedFetch_hit _ key t1 g1 (f ()) t0 hσ hin]
  · rw [cachedFetch_expired _ key t2 g2 (f ()) t0 hσ hout]
  · rw [cachedFetch_expired _ key t2 g2 (f ()) t0 hσ hout]
  · rw [cachedFetch_miss _ altKey t3 g3 hσa]

/-- C7 witness: the cache policy at concrete keys, times and fetch
results. -/
theorem c7_witness :
    100 < 0 + 300 ∧ 0 + 300 < 400 ∧ (1 : Nat) ≠ (0 : Nat) ∧
    ((cachedFetch (fun _ => none) (0 : Nat) 0 c7f).1 = c7f () ∧
     (cachedFetch (fun _ => none) (0 : Nat) 0 c7f).2.2 = true ∧
     (cachedFetch (cachedFetch (fun _ => none) (0 : Nat) 0 c7f).2.1 0 100 c7g1).1 = c7f () ∧
     (cachedFetch (cachedFetch (fun _ => none) (0 : Nat) 0 c7f).2.1 0 100 c7g1).2.2 = false ∧
     (cachedFetch (cachedFetch (fun _ => none) (0 : Nat) 0 c7f).2.1 0 400 c7g2).1 = c7g2 () ∧
     (cachedFetch (cachedFetch (fun _ => none) (0 : Nat) 0 c7f).2.1 0 400 c7g2).2.2 = true ∧
     (cachedFetch (cachedFetch (fun _ => none) (0 : Nat) 0 c7f).2.1 1 50 c7g3).2.2 = true) :=
  ⟨by decide, by decide, by decide,
   c7_cache_policy 0 1 0 100 400 50 c7f c7g1 c7g2 c7g3 (by decide) (by decide) (by decide)⟩

/-- C8: when the picked start and end dates are the same calendar day, the
range sent upstream is that day's 24-hour window in integer epoch seconds:
`from` is 00:00:00 (86400·day) and `to` is 23:59:59 (86400·day + 86399),
the truncation of 23:59:59.999999.  Days on or after the epoch are
considered (the dashboard's date pickers). -/
theorem c8_day_window (day : Int) (hday : 0 ≤ day) :
    fetch_range_params (normalize_start_date day) (normalize_end_date day) =
      (86400 * day, 86400 * day + 86399) := by
  have h1 : (0 : Rat) ≤ ((86400 * day : Int) : Rat) := by
    have h0 : (0 : Int) ≤ 86400 * day := by positivity
    exact_mod_cast h0
  have h3 : (0 : Rat) ≤ ((86400 * day + 86399 : Int) : Rat) + 999999 / 1000000 := by
    have h2 : (0 : Int) ≤ 86400 * day + 86399 := by positivity
    have h2r : (0 : Rat) ≤ ((86400 * day + 86399 : Int) : Rat) := by exact_mod_cast h2
    have h4 : (0 : Rat) ≤ 999999 / 1000000 := by norm_num
    linarith
  unfold fetch_range_params pyInt normalize_start_date normalize_end_date
  rw [if_pos h1, if_pos h3]
  rw [Int.floor_intCast]
  rw [add_comm ((86400 * day + 86399 : Int) : Rat) (999999 / 1000000 : Rat)]
  rw [Int.floor_add_int]
  have h5 : (⌊(999999 / 1000000 : Rat)⌋ : Int) = 0 := by
    rw [Int.floor_eq_zero_iff]
    constructor <;> norm_num
  rw [h5, zero_add]

/-- C8 witness: the day window at a concrete epoch day. -/
theorem c8_witness :
    (0 : Int) ≤ 20000 ∧
    fetch_range_params (normalize_start_date 20000) (normalize_end_date 20000) =
      (86400 * 20000, 86400 * 20000 + 86399) :=
  ⟨by decide, c8_day_window 20000 (by decide)⟩

/-- C9 as stated is refuted: on the spec's end-to-end example the source
leaves the symbol field unchanged (lowercase "btc"/"eth"), so the claimed
rows with uppercased symbols "BTC"/"ETH" are not produced. -/
theorem c9_counterexample :
    format_market_data [btcRecord, ethRecord] ≠
      .ok [⟨some "Bitcoin", some "BTC", 65000, 0, 1280000000000⟩,
           ⟨some "Ethereum", some "ETH", 3400, -21 / 10, 410000000000⟩] := by
  decide

/-- C9 amended: on the spec's end-to-end example, `format_market_data`
produces exactly the two rows in input order, with the null 24h change of
the first record replaced by 0 and the symbols passed through in their
original lowercase form. -/
theorem c9_amended_rows :
    format_market_data [btcRecord, ethRecord] =
      .ok [⟨some "Bitcoin", some "btc", 65000, 0, 1280000000000⟩,
           ⟨some "Ethereum", some "eth", 3400, -21 / 10, 410000000000⟩] := by
  decide

end
